import Mathlib

/-!
# Verification of the gptBar browser-cookie extraction subsystem

Shallow embedding of `src-tauri/src/auth/cookie_extractor.rs` and
`src-tauri/src/security/dpapi.rs`.

Modelling conventions:
* Bytes (`Vec<u8>`, `&[u8]`) are `List Nat` with values below 256; Rust
  `String` values that only flow through opaquely are modelled either as Lean
  `String` (SQL text columns, error messages) or as their UTF-8 byte
  sequences (`List Nat`) when they are produced from decrypted bytes.
* External crates and OS primitives (the Windows `CryptUnprotectData` call,
  the `aes_gcm` AEAD, the `base64` decoder, `serde_json` document access,
  SQLite connection/query outcomes) are parameters of an environment record:
  the repository's own control flow around them is embedded exactly.
* Fallible Rust functions returning `Result<T, E>` become `Except E T`.
* The filesystem state relevant to temp-file lifecycle is an explicit list of
  existing paths threaded through `extract_cookies`.
-/

set_option autoImplicit false

namespace GptBar

/-- A byte, as stored in a `Vec<u8>`. -/
abbrev Byte := Nat

/-- Models `CookieError` from `cookie_extractor.rs`. Variants carry the same data as
the Rust enum; `Database` and `Io` carry the underlying error's display
string. -/
inductive CookieError where
  | DatabaseNotFound (browser : String) (path : String)
  | Database (msg : String)
  | Decryption (msg : String)
  | NoCookiesFound (domain : String)
  | Io (msg : String)
  | EnvVar (name : String)
  deriving DecidableEq, Repr

/-- Models `DpapiError` from `security/dpapi.rs`. -/
inductive DpapiError where
  | EncryptionFailed (msg : String)
  | DecryptionFailed (msg : String)
  | WindowsError (msg : String)
  | MemoryError
  deriving DecidableEq, Repr

/-- The `thiserror`-derived `Display` form of a `DpapiError`
(used by `e.to_string()` in `cookie_extractor.rs`). -/
def DpapiError.display : DpapiError → String
  | .EncryptionFailed m => "DPAPI encryption failed: " ++ m
  | .DecryptionFailed m => "DPAPI decryption failed: " ++ m
  | .WindowsError m => "Windows API error: " ++ m
  | .MemoryError => "Memory allocation error"

/-- Models `BrowserType` from `cookie_extractor.rs`. -/
inductive BrowserType where
  | Chrome
  | Edge
  | Firefox
  deriving DecidableEq, Repr

/-- Models `BrowserType::name`. -/
def BrowserType.name : BrowserType → String
  | .Chrome => "Chrome"
  | .Edge => "Edge"
  | .Firefox => "Firefox"

/-- Models `BrowserType::all`: the fixed preference order Chrome, Edge, Firefox. -/
def BrowserType.all : List BrowserType := [.Chrome, .Edge, .Firefox]

/-- A `Cookie` record. `value` holds the decrypted plaintext as its UTF-8
byte sequence (a Rust `String` is exactly a valid-UTF-8 byte vector). -/
structure Cookie where
  name : String
  value : List Byte
  domain : String
  path : String
  expires : Option Int
  secure : Bool
  httpOnly : Bool
  deriving DecidableEq, Repr

/-! ## UTF-8 validity (the check performed by Rust `String::from_utf8`) -/

/-- Is `b` a UTF-8 continuation byte (`0x80..=0xBF`)? -/
def isCont (b : Byte) : Bool := 0x80 ≤ b && b ≤ 0xBF

/-- UTF-8 validity of a byte sequence, per RFC 3629 (the exact check made by
Rust's `String::from_utf8`). -/
def isValidUtf8 : List Byte → Bool
  | [] => true
  | b :: rest =>
    if b ≤ 0x7F then isValidUtf8 rest
    else if 0xC2 ≤ b && b ≤ 0xDF then
      match rest with
      | c1 :: rest' => isCont c1 && isValidUtf8 rest'
      | [] => false
    else if b = 0xE0 then
      match rest with
      | c1 :: c2 :: rest' => (0xA0 ≤ c1 && c1 ≤ 0xBF) && isCont c2 && isValidUtf8 rest'
      | _ => false
    else if (0xE1 ≤ b && b ≤ 0xEC) || b = 0xEE || b = 0xEF then
      match rest with
      | c1 :: c2 :: rest' => isCont c1 && isCont c2 && isValidUtf8 rest'
      | _ => false
    else if b = 0xED then
      match rest with
      | c1 :: c2 :: rest' => (0x80 ≤ c1 && c1 ≤ 0x9F) && isCont c2 && isValidUtf8 rest'
      | _ => false
    else if b = 0xF0 then
      match rest with
      | c1 :: c2 :: c3 :: rest' =>
        (0x90 ≤ c1 && c1 ≤ 0xBF) && isCont c2 && isCont c3 && isValidUtf8 rest'
      | _ => false
    else if 0xF1 ≤ b && b ≤ 0xF3 then
      match rest with
      | c1 :: c2 :: c3 :: rest' => isCont c1 && isCont c2 && isCont c3 && isValidUtf8 rest'
      | _ => false
    else if b = 0xF4 then
      match rest with
      | c1 :: c2 :: c3 :: rest' =>
        (0x80 ≤ c1 && c1 ≤ 0x8F) && isCont c2 && isCont c3 && isValidUtf8 rest'
      | _ => false
    else false

/-- Rust `String::from_utf8`: validates the bytes; on success the `String` is
the same bytes (we keep the byte representation). The error display string is
abbreviated to a fixed message (Rust's includes byte indices); only its
`"UTF-8 error: "` framing below is load-bearing. -/
def stringFromUtf8 (bs : List Byte) : Except String (List Byte) :=
  if isValidUtf8 bs then .ok bs else .error "invalid utf-8 sequence"

/-! ## `DpapiStore` (security/dpapi.rs) -/

/-- Models `DpapiStore::decrypt`, Windows implementation. The OS primitive
`CryptUnprotectData` is a parameter: `none` models the API call failing,
`some out` a successful call whose output blob holds `out` (the code treats a
null/empty output blob, here `some []`, as a memory error). The empty-input
fast path returns empty without consulting the primitive. -/
def DpapiStore.decryptWindows (cryptUnprotectData : List Byte → Option (List Byte))
    (encrypted : List Byte) : Except DpapiError (List Byte) :=
  if encrypted = [] then .ok []
  else
    match cryptUnprotectData encrypted with
    | none => .error (.DecryptionFailed "CryptUnprotectData failed")
    | some out => if out = [] then .error .MemoryError else .ok out

/-- Models `DpapiStore::decrypt`, the `#[cfg(not(windows))]` stub: every call fails
with the fixed `WindowsError`. -/
def DpapiStore.decryptNonWindows (_encrypted : List Byte) : Except DpapiError (List Byte) :=
  .error (.WindowsError "DPAPI is only available on Windows")

/-! ## SQLite `LIKE` (the predicate evaluated by the `WHERE ... LIKE` clauses)

SQLite's default `LIKE` is ASCII-case-insensitive; `%` matches any byte
sequence and `_` any single character. This models the external SQLite
engine's behaviour on the two patterns the code builds. -/

/-- Lower-case an ASCII letter (SQLite `LIKE` default case folding). -/
def asciiLower (c : Char) : Char :=
  if 'A' ≤ c && c ≤ 'Z' then Char.ofNat (c.toNat + 32) else c

/-- Models `LIKE` pattern matching over character lists, structurally recursive on
the pattern: `%` tries every suffix of the remaining text. -/
def likeMatch : List Char → List Char → Bool
  | [], s => s.isEmpty
  | '%' :: ps, s => s.tails.any (fun t => likeMatch ps t)
  | '_' :: ps, s =>
    match s with
    | [] => false
    | _ :: ss => likeMatch ps ss
  | p :: ps, s =>
    match s with
    | [] => false
    | c :: ss => (asciiLower p == asciiLower c) && likeMatch ps ss

/-- Models `text LIKE pattern` on Lean strings. -/
def sqlLike (pattern : String) (text : String) : Bool :=
  likeMatch pattern.toList text.toList

/-! ## Cookie-store rows (the two schemas read by the Schema Adapter) -/

/-- One row of the Chromium `cookies` table, as selected by
`extract_chromium_cookies`. -/
structure ChromiumRow where
  name : String
  encryptedValue : List Byte
  hostKey : String
  path : String
  expiresUtc : Option Int
  isSecure : Bool
  isHttponly : Bool
  deriving DecidableEq, Repr

/-- One row of the Firefox `moz_cookies` table, as selected by
`extract_firefox_cookies`. The plaintext `value` text column is kept as its
UTF-8 bytes to match `Cookie.value`. -/
structure FirefoxRow where
  name : String
  value : List Byte
  host : String
  path : String
  expiry : Option Int
  isSecure : Bool
  isHttpOnly : Bool
  deriving DecidableEq, Repr

/-- The `WHERE host_key LIKE ?1 OR host_key LIKE ?2` predicate with
`?1 = "%{domain}"` and `?2 = ".{domain}"` (same patterns in the Chromium and
Firefox queries). -/
def hostMatchesDomain (domain : String) (host : String) : Bool :=
  sqlLike ("%" ++ domain) host || sqlLike ("." ++ domain) host

/-- The rows the Chromium query returns for `domain`: the table rows
satisfying the `LIKE` predicate, in table order. -/
def chromiumSelectRows (rows : List ChromiumRow) (domain : String) : List ChromiumRow :=
  rows.filter (fun r => hostMatchesDomain domain r.hostKey)

/-- The rows the Firefox query returns for `domain`. -/
def firefoxSelectRows (rows : List FirefoxRow) (domain : String) : List FirefoxRow :=
  rows.filter (fun r => hostMatchesDomain domain r.host)

/-! ## Key Manager and Authenticated Cookie Decoder (Windows implementation) -/

/-- State of one browser's `Local State` key-store document as seen by
`get_chromium_encryption_key`:
`absent` — the path does not exist (the loop skips it);
`unreadable` — `fs::read_to_string` fails (an `Io` error is returned);
`badJson` — `serde_json::from_str` fails;
`noKey` — JSON parses but has no `os_crypt.encrypted_key` string (the loop
falls through to the next path);
`key b64` — the document holds `encrypted_key` value `b64`. -/
inductive LocalStateFile where
  | absent
  | unreadable (msg : String)
  | badJson (msg : String)
  | noKey
  | key (b64 : String)
  deriving DecidableEq, Repr

/-- Environment for the Chromium decryption path: the two key-store
documents, plus the external primitives the code calls (base64 decoding,
`CryptUnprotectData`, AES-256-GCM decryption keyed by key/nonce/ciphertext,
`none` modelling tag-verification failure). -/
structure ChromiumEnv where
  localAppDataSet : Bool
  chromeLocalState : LocalStateFile
  edgeLocalState : LocalStateFile
  b64decode : String → Except String (List Byte)
  cryptUnprotectData : List Byte → Option (List Byte)
  aesGcmDecrypt : List Byte → List Byte → List Byte → Option (List Byte)

/-- The bytes of the `"DPAPI"` magic marker stripped from the encrypted key. -/
def dpapiMagic : List Byte := [0x44, 0x50, 0x41, 0x50, 0x49]

/-- The body of the `for path in &local_state_paths` loop in
`get_chromium_encryption_key` for one candidate document; `next` is the
continuation for the remaining paths (reached when the path does not exist or
the JSON has no `os_crypt.encrypted_key` entry). -/
def tryLocalState (env : ChromiumEnv) (file : LocalStateFile)
    (next : Except CookieError (List Byte)) : Except CookieError (List Byte) :=
  match file with
  | .absent => next
  | .unreadable msg => .error (.Io msg)
  | .badJson msg => .error (.Decryption ("JSON parse error: " ++ msg))
  | .noKey => next
  | .key b64 =>
    match env.b64decode b64 with
    | .error msg => .error (.Decryption ("Base64 error: " ++ msg))
    | .ok encryptedKey =>
      if encryptedKey.length < 5 || encryptedKey.take 5 ≠ dpapiMagic then
        .error (.Decryption "Invalid key format")
      else
        match DpapiStore.decryptWindows env.cryptUnprotectData (encryptedKey.drop 5) with
        | .error e => .error (.Decryption ("DPAPI error: " ++ e.display))
        | .ok key => .ok key

/-- Models `get_chromium_encryption_key`: reads `LOCALAPPDATA`, then tries the
Chrome `Local State` path first and the Edge one second, regardless of which
browser's cookies are being decrypted; if neither yields a key, fails with
the fixed `Decryption` error. -/
def getChromiumEncryptionKey (env : ChromiumEnv) : Except CookieError (List Byte) :=
  if env.localAppDataSet = false then .error (.EnvVar "LOCALAPPDATA")
  else
    tryLocalState env env.chromeLocalState
      (tryLocalState env env.edgeLocalState
        (.error (.Decryption "Could not find encryption key")))

/-- The 3-byte prefix `b"v10"`. -/
def v10Magic : List Byte := [0x76, 0x31, 0x30]

/-- The 3-byte prefix `b"v11"`. -/
def v11Magic : List Byte := [0x76, 0x31, 0x31]

/-- Models `decrypt_chromium_v10`: resolves the master key first, then enforces the
minimum length 3+12+16, splits nonce (bytes 3..15) from
ciphertext-plus-tag (bytes 15..), builds the AES-256-GCM cipher (failing if
the key is not 32 bytes, the `new_from_slice` error), decrypts, and requires
the plaintext to be valid UTF-8. -/
def decryptChromiumV10 (env : ChromiumEnv) (encrypted : List Byte) :
    Except CookieError (List Byte) :=
  match getChromiumEncryptionKey env with
  | .error e => .error e
  | .ok key =>
    if encrypted.length < 3 + 12 + 16 then
      .error (.Decryption "Encrypted data too short")
    else
      let nonceBytes := (encrypted.drop 3).take 12
      let ciphertext := encrypted.drop 15
      if key.length ≠ 32 then .error (.Decryption "Invalid key: Invalid Length")
      else
        match env.aesGcmDecrypt key nonceBytes ciphertext with
        | none => .error (.Decryption "AES-GCM decryption failed: aead::Error")
        | some decrypted =>
          match stringFromUtf8 decrypted with
          | .error m => .error (.Decryption ("UTF-8 error: " ++ m))
          | .ok s => .ok s

/-- The legacy (pre-v10) branch of `decrypt_chromium_cookie`: the whole value
is passed to DPAPI `decrypt`, and the output must be valid UTF-8. -/
def legacyDpapiDecode (env : ChromiumEnv) (encrypted : List Byte) :
    Except CookieError (List Byte) :=
  match DpapiStore.decryptWindows env.cryptUnprotectData encrypted with
  | .error e => .error (.Decryption e.display)
  | .ok decrypted =>
    match stringFromUtf8 decrypted with
    | .error m => .error (.Decryption ("UTF-8 error: " ++ m))
    | .ok s => .ok s

/-- Models `decrypt_chromium_cookie` (Windows): empty value decodes to empty; a
value strictly longer than 3 bytes starting with `v10`/`v11` takes the AEAD
path; everything else is treated as a legacy DPAPI blob. -/
def decryptChromiumCookie (env : ChromiumEnv) (encrypted : List Byte) :
    Except CookieError (List Byte) :=
  if encrypted = [] then .ok []
  else if encrypted.length > 3 &&
      (encrypted.take 3 == v10Magic || encrypted.take 3 == v11Magic) then
    decryptChromiumV10 env encrypted
  else
    legacyDpapiDecode env encrypted

/-! ## Extraction pipeline (`extract_cookies` and collaborators)

The filesystem is threaded explicitly: `FileSystem.files` is the list of
paths currently existing on disk. SQLite behaviour is part of the
environment: `openOk p` is whether `Connection::open(p)` succeeds inside
`copy_database_if_locked`, and `chromiumDb p` / `firefoxDb p` is the outcome
of opening `p` and running the respective query (an `.error` is the rusqlite
error's display string, covering open, prepare, and row-decoding failures). -/

/-- The set of files existing on disk, as a list of paths. -/
structure FileSystem where
  files : List String
  deriving DecidableEq, Repr

/-- Environment for `extract_cookies`: resolved cookie-store paths (the
outcome of `Self::cookie_path`, which reads environment variables and scans
Firefox profiles), SQLite open/query outcomes per path, the result of
`fs::copy`, the process id used in the temp-file name, and the Chromium
decryption environment. -/
structure ExtractEnv where
  chromium : ChromiumEnv
  cookiePathResult : BrowserType → Except CookieError String
  openOk : String → Bool
  chromiumDb : String → Except String (List ChromiumRow)
  firefoxDb : String → Except String (List FirefoxRow)
  copyResult : Except String Unit
  pid : Nat

/-- The temp-file path built by `copy_database_if_locked`:
`temp_dir().join(format!("gptbar_cookies_{}.db", process::id()))` (the
temp-directory prefix is elided; only the name matters for identity). -/
def tempCookiePath (pid : Nat) : String :=
  "gptbar_cookies_" ++ toString pid ++ ".db"

/-- Models `copy_database_if_locked`: if `Connection::open` succeeds on the original
path, no copy is made; otherwise the store is copied to the temp path (the
copy appearing on disk), or the copy failure is surfaced as an `Io` error. -/
def copyDatabaseIfLocked (env : ExtractEnv) (path : String) (fs : FileSystem) :
    Except CookieError (Option String) × FileSystem :=
  if env.openOk path then (.ok none, fs)
  else
    let tempPath := tempCookiePath env.pid
    match env.copyResult with
    | .error msg => (.error (.Io msg), fs)
    | .ok _ =>
      (.ok (some tempPath),
       ⟨if fs.files.contains tempPath then fs.files else fs.files ++ [tempPath]⟩)

/-- The row loop of `extract_chromium_cookies`: each row's encrypted value is
decrypted; the first decryption error aborts the whole read. -/
def decryptRows (cenv : ChromiumEnv) : List ChromiumRow → Except CookieError (List Cookie)
  | [] => .ok []
  | r :: rs =>
    match decryptChromiumCookie cenv r.encryptedValue with
    | .error e => .error e
    | .ok value =>
      match decryptRows cenv rs with
      | .error e => .error e
      | .ok cs =>
        .ok ({ name := r.name, value := value, domain := r.hostKey, path := r.path,
               expires := r.expiresUtc, secure := r.isSecure,
               httpOnly := r.isHttponly } :: cs)

/-- Models `extract_chromium_cookies` at a path: open/query the database, select the
rows matching the domain patterns, decrypt each value. -/
def extractChromiumCookiesAt (env : ExtractEnv) (dbPath : String) (domain : String) :
    Except CookieError (List Cookie) :=
  match env.chromiumDb dbPath with
  | .error msg => .error (.Database msg)
  | .ok rows => decryptRows env.chromium (chromiumSelectRows rows domain)

/-- Models `extract_firefox_cookies` at a path: Firefox values are plaintext, each
selected row maps directly to a `Cookie`. -/
def extractFirefoxCookiesAt (env : ExtractEnv) (dbPath : String) (domain : String) :
    Except CookieError (List Cookie) :=
  match env.firefoxDb dbPath with
  | .error msg => .error (.Database msg)
  | .ok rows =>
    .ok ((firefoxSelectRows rows domain).map (fun r =>
      { name := r.name, value := r.value, domain := r.host, path := r.path,
        expires := r.expiry, secure := r.isSecure, httpOnly := r.isHttpOnly }))

/-- The `// Clean up temp file` step of `extract_cookies`: `remove_file` on
the temp path when one was created (its result is discarded). -/
def removeTemp (tempPath : Option String) (fs : FileSystem) : FileSystem :=
  match tempPath with
  | some temp => ⟨fs.files.filter (fun f => f ≠ temp)⟩
  | none => fs

/-- The tail of `extract_cookies`: an empty cookie list becomes
`NoCookiesFound`, otherwise the list is returned. -/
def finalizeCookies (domain : String) (cookies : List Cookie) (fs : FileSystem) :
    Except CookieError (List Cookie) × FileSystem :=
  if cookies = [] then (.error (.NoCookiesFound domain), fs)
  else (.ok cookies, fs)

/-- Models `extract_cookies`: resolve the store path, require it to exist, snapshot
it if locked, run the family-specific query/decrypt step (whose `?` operator
returns early, before the temp-file cleanup), remove the temp file on the
success path, and turn an empty result into `NoCookiesFound`. -/
def extractCookies (env : ExtractEnv) (browser : BrowserType) (domain : String)
    (fs : FileSystem) : Except CookieError (List Cookie) × FileSystem :=
  match env.cookiePathResult browser with
  | .error e => (.error e, fs)
  | .ok dbPath =>
    if fs.files.contains dbPath = false then
      (.error (.DatabaseNotFound browser.name dbPath), fs)
    else
      match copyDatabaseIfLocked env dbPath fs with
      | (.error e, fs') => (.error e, fs')
      | (.ok tempPath, fs') =>
        let dbPathToUse := tempPath.getD dbPath
        let result : Except CookieError (List Cookie) :=
          match browser with
          | .Chrome | .Edge => extractChromiumCookiesAt env dbPathToUse domain
          | .Firefox => extractFirefoxCookiesAt env dbPathToUse domain
        match result with
        | .error e => (.error e, fs')
        | .ok cookies => finalizeCookies domain cookies (removeTemp tempPath fs')

/-- The `for browser in BrowserType::all()` loop of
`extract_cookies_any_browser`: first `Ok` wins, every `Err` is discarded, an
exhausted list yields `NoCookiesFound(domain)`. -/
def anyBrowserLoop (env : ExtractEnv) (domain : String) :
    List BrowserType → FileSystem → Except CookieError (List Cookie) × FileSystem
  | [], fs => (.error (.NoCookiesFound domain), fs)
  | b :: rest, fs =>
    match extractCookies env b domain fs with
    | (.ok cookies, fs') => (.ok cookies, fs')
    | (.error _, fs') => anyBrowserLoop env domain rest fs'

/-- Models `extract_cookies_any_browser`: iterate the fixed preference order. -/
def extractCookiesAnyBrowser (env : ExtractEnv) (domain : String) (fs : FileSystem) :
    Except CookieError (List Cookie) × FileSystem :=
  anyBrowserLoop env domain BrowserType.all fs

/-! ## Shared helper lemmas -/

/-- An `Ok` outcome of the final empty-check step carries a non-empty
list. -/
theorem finalizeCookies_ok_nonempty (domain : String) (cookies : List Cookie)
    (fs : FileSystem) (cs : List Cookie) (fs' : FileSystem)
    (h : finalizeCookies domain cookies fs = (.ok cs, fs')) : cs ≠ [] := by
  unfold finalizeCookies at h
  split at h
  · simp at h
  · rename_i hne
    rw [Prod.mk.injEq] at h
    rcases h with ⟨h1, _⟩
    rw [Except.ok.injEq] at h1
    rw [← h1]
    exact hne

/-- Any `Ok` outcome of `extract_cookies` carries a non-empty list: the
empty case is converted to `NoCookiesFound` before the `Ok` return. -/
theorem extractCookies_ok_nonempty (env : ExtractEnv) (browser : BrowserType)
    (domain : String) (fs : FileSystem) (cs : List Cookie) (fs' : FileSystem)
    (h : extractCookies env browser domain fs = (.ok cs, fs')) : cs ≠ [] := by
  unfold extractCookies at h
  split at h
  · simp at h
  · split at h
    · simp at h
    · split at h
      · simp at h
      · dsimp only at h
        split at h <;>
          first
          | simp at h
          | exact finalizeCookies_ok_nonempty _ _ _ _ _ h

/-! ## C5: a successful extraction never returns an empty cookie list -/

/-- C5: For every single-browser extraction in which the pipeline
succeeds but zero rows match the requested domain, the result is the
`NoCookiesFound` error, never a successful empty list: every `Ok` result of
`extract_cookies` contains at least one cookie. -/
theorem extract_cookies_ok_is_nonempty (env : ExtractEnv) (browser : BrowserType)
    (domain : String) (fs : FileSystem) (cs : List Cookie) (fs' : FileSystem)
    (h : extractCookies env browser domain fs = (.ok cs, fs')) : cs ≠ [] :=
  extractCookies_ok_nonempty env browser domain fs cs fs' h

/-- Chromium environment with no key stores and failing primitives (the
decryption machinery is never reached on the inputs it is used with). -/
def c5ChromiumEnv : ChromiumEnv :=
  { localAppDataSet := true, chromeLocalState := .absent, edgeLocalState := .absent,
    b64decode := fun _ => .error "unused", cryptUnprotectData := fun _ => none,
    aesGcmDecrypt := fun _ _ _ => none }

/-- A stored row for `.example.com` whose value is empty (decoded without
touching DPAPI). -/
def c5Row : ChromiumRow :=
  { name := "session", encryptedValue := [], hostKey := ".example.com", path := "/",
    expiresUtc := some 13400000000000000, isSecure := true, isHttponly := true }

/-- Extraction environment where Chrome's store exists, is unlocked, and
holds one matching row. -/
def c5Env : ExtractEnv :=
  { chromium := c5ChromiumEnv,
    cookiePathResult := fun b =>
      match b with
      | .Chrome => .ok "ChromeCookies"
      | _ => .error (.EnvVar "APPDATA"),
    openOk := fun _ => true,
    chromiumDb := fun p => if p = "ChromeCookies" then .ok [c5Row] else .error "no such table: cookies",
    firefoxDb := fun _ => .error "no such table: moz_cookies",
    copyResult := .ok (),
    pid := 1 }

/-- The cookie produced from `c5Row`. -/
def c5Cookie : Cookie :=
  { name := "session", value := [], domain := ".example.com", path := "/",
    expires := some 13400000000000000, secure := true, httpOnly := true }

/-- Witness for C5: a concrete successful extraction, whose result list is
non-empty by the theorem. -/
theorem extract_cookies_ok_is_nonempty_witness :
    extractCookies c5Env .Chrome "example.com" ⟨["ChromeCookies"]⟩ =
      (.ok [c5Cookie], ⟨["ChromeCookies"]⟩) ∧ [c5Cookie] ≠ [] :=
  ⟨rfl, extract_cookies_ok_is_nonempty c5Env .Chrome "example.com" ⟨["ChromeCookies"]⟩
    [c5Cookie] ⟨["ChromeCookies"]⟩ rfl⟩

/-! ## C8: DPAPI empty-input fast path and the non-Windows stub -/

/-- C8: On Windows, `DpapiStore::decrypt` on empty input returns empty
output without invoking the platform primitive (the result is `Ok []` for
*every* possible behaviour `f` of `CryptUnprotectData`); on platforms
lacking the primitive, every call — including on empty input —
deterministically fails with the `WindowsError` ("platform unsupported")
condition rather than crashing. -/
theorem dpapi_decrypt_empty_and_unsupported :
    (∀ f : List Byte → Option (List Byte), DpapiStore.decryptWindows f [] = .ok [])
    ∧ (∀ enc : List Byte, DpapiStore.decryptNonWindows enc =
        .error (.WindowsError "DPAPI is only available on Windows")) :=
  ⟨fun _ => rfl, fun _ => rfl⟩

/-! ## C9: the master key is resolved before the v10 length check -/

/-- C9: `decrypt_chromium_v10` resolves the master key before performing
the minimum-length check: whenever key resolution fails, its error is
reported for every input value — in particular for too-short v10 values,
whose length error is never reached. -/
theorem v10_key_resolution_precedes_length_check (env : ChromiumEnv)
    (v : List Byte) (e : CookieError)
    (h : getChromiumEncryptionKey env = .error e) :
    decryptChromiumV10 env v = .error e := by
  simp [decryptChromiumV10, h]

/-- Chromium environment in which neither Chrome's nor Edge's `Local State`
document exists, so key resolution fails. -/
def c9Env : ChromiumEnv :=
  { localAppDataSet := true, chromeLocalState := .absent, edgeLocalState := .absent,
    b64decode := fun _ => .error "unused", cryptUnprotectData := fun _ => none,
    aesGcmDecrypt := fun _ _ _ => none }

/-- Witness for C9: a 5-byte v10 value (shorter than 31 bytes) still reports
the key-lookup failure, not the length error. -/
theorem v10_key_resolution_precedes_length_check_witness :
    (v10Magic ++ [1, 2]).length < 31 ∧
      decryptChromiumV10 c9Env (v10Magic ++ [1, 2]) =
        .error (.Decryption "Could not find encryption key") :=
  ⟨by decide,
   v10_key_resolution_precedes_length_check c9Env (v10Magic ++ [1, 2]) _ rfl⟩

/-! ## C10: classification of short values as legacy DPAPI blobs -/

/-- C10: Every non-empty stored Chromium value of length at most 3 bytes
— including exactly the bytes `"v10"`/`"v11"` — is classified as a legacy
platform blob and passed whole to DPAPI; the versioned AEAD path is taken
exactly when the value is strictly longer than 3 bytes and begins with
`"v10"` or `"v11"`. -/
theorem short_values_take_legacy_path (env : ChromiumEnv) (v : List Byte) :
    (v ≠ [] → v.length ≤ 3 → decryptChromiumCookie env v = legacyDpapiDecode env v)
    ∧ (v ≠ [] → v.take 3 ≠ v10Magic → v.take 3 ≠ v11Magic →
        decryptChromiumCookie env v = legacyDpapiDecode env v)
    ∧ (v.length > 3 → (v.take 3 = v10Magic ∨ v.take 3 = v11Magic) →
        decryptChromiumCookie env v = decryptChromiumV10 env v) := by
  refine ⟨?_, ?_, ?_⟩
  · intro h1 h2
    have h3 : ¬(3 < v.length) := by omega
    simp [decryptChromiumCookie, h1, h3]
  · intro h1 h2 h3
    simp [decryptChromiumCookie, h1, h2, h3]
  · intro h1 h2
    have hne : v ≠ [] := by
      intro hv
      subst hv
      simp at h1
    rcases h2 with h2 | h2 <;> simp [decryptChromiumCookie, hne, h1, h2]

/-- Chromium environment whose DPAPI primitive unprotects the exact bytes
`"v10"` to the single byte `a`. -/
def c10Env : ChromiumEnv :=
  { localAppDataSet := true, chromeLocalState := .absent, edgeLocalState := .absent,
    b64decode := fun _ => .error "unused",
    cryptUnprotectData := fun b => if b = v10Magic then some [0x61] else none,
    aesGcmDecrypt := fun _ _ _ => none }

/-- Witness for C10: the 3-byte value consisting exactly of `"v10"` goes
through the legacy DPAPI path on the whole value and decodes successfully. -/
theorem short_values_take_legacy_path_witness :
    decryptChromiumCookie c10Env v10Magic = legacyDpapiDecode c10Env v10Magic
    ∧ legacyDpapiDecode c10Env v10Magic = .ok [0x61] :=
  ⟨(short_values_take_legacy_path c10Env v10Magic).1 (by decide) (by decide), rfl⟩

/-! ## C1: temp-file cleanup on error exit paths -/

/-- Extraction environment for a locked Chrome store: `Connection::open`
fails on the original path, the copy to the temp location succeeds, and the
subsequent query on the copy fails. -/
def c1Env : ExtractEnv :=
  { chromium :=
      { localAppDataSet := true, chromeLocalState := .absent, edgeLocalState := .absent,
        b64decode := fun _ => .error "unused", cryptUnprotectData := fun _ => none,
        aesGcmDecrypt := fun _ _ _ => none },
    cookiePathResult := fun b =>
      match b with
      | .Chrome => .ok "ChromeCookies"
      | _ => .error (.EnvVar "APPDATA"),
    openOk := fun _ => false,
    chromiumDb := fun _ => .error "database is locked",
    firefoxDb := fun _ => .error "unused",
    copyResult := .ok (),
    pid := 4242 }

/-- C1: Evaluation at the failing input: when the store is locked (so a
temp copy is made) and the query on the copy then fails, `extract_cookies`
returns the query error with the temp file still on disk — the `?` operator
on the extraction step returns before the `// Clean up temp file` line, so
the cleanup is skipped on this exit path, contradicting the claimed
every-exit-path removal. -/
theorem extract_cookies_leaves_temp_file_on_query_error :
    extractCookies c1Env .Chrome "example.com" ⟨["ChromeCookies"]⟩ =
      (.error (.Database "database is locked"),
       ⟨["ChromeCookies", "gptbar_cookies_4242.db"]⟩)
    ∧ (extractCookies c1Env .Chrome "example.com" ⟨["ChromeCookies"]⟩).2.files.contains
        (tempCookiePath 4242) = true :=
  ⟨rfl, rfl⟩

/-! ## C2: domain matching in the cookie-store queries -/

/-- A stored row whose host is the dot-prefixed parent form `.example.com`. -/
def c2RowParent : ChromiumRow :=
  { name := "sess", encryptedValue := [], hostKey := ".example.com", path := "/",
    expiresUtc := none, isSecure := false, isHttponly := false }

/-- A stored row for the unrelated host `other.com`. -/
def c2RowOther : ChromiumRow :=
  { name := "sess", encryptedValue := [], hostKey := "other.com", path := "/",
    expiresUtc := none, isSecure := false, isHttponly := false }

/-- Extraction environment whose unlocked Chrome store holds exactly the
`.example.com` and `other.com` rows. -/
def c2Env : ExtractEnv :=
  { chromium :=
      { localAppDataSet := true, chromeLocalState := .absent, edgeLocalState := .absent,
        b64decode := fun _ => .error "unused", cryptUnprotectData := fun _ => none,
        aesGcmDecrypt := fun _ _ _ => none },
    cookiePathResult := fun b =>
      match b with
      | .Chrome => .ok "ChromeCookies"
      | _ => .error (.EnvVar "APPDATA"),
    openOk := fun _ => true,
    chromiumDb := fun p =>
      if p = "ChromeCookies" then .ok [c2RowParent, c2RowOther]
      else .error "no such table: cookies",
    firefoxDb := fun _ => .error "unused",
    copyResult := .ok (),
    pid := 2 }

/-- The cookie produced from `c2RowParent`. -/
def c2ParentCookie : Cookie :=
  { name := "sess", value := [], domain := ".example.com", path := "/",
    expires := none, secure := false, httpOnly := false }

/-- C2 counterexample: On the store holding `.example.com` and
`other.com` rows, querying `example.com` does return only the
`.example.com` row, but querying `sub.example.com` matches nothing — the
patterns `"%sub.example.com"` / `".sub.example.com"` do not match host
`.example.com`, so the claimed parent-domain match for subdomain lookups
fails and the call ends in `NoCookiesFound`. -/
theorem subdomain_query_misses_parent_domain_row :
    (extractCookies c2Env .Chrome "example.com" ⟨["ChromeCookies"]⟩).1 =
      .ok [c2ParentCookie]
    ∧ (extractCookies c2Env .Chrome "sub.example.com" ⟨["ChromeCookies"]⟩).1 =
      .error (.NoCookiesFound "sub.example.com") :=
  ⟨rfl, rfl⟩

/-- C2 amended: The queries match hosts by the suffix patterns
`"%domain"` / `".domain"`: for every store, a `.example.com` row is returned
when querying `example.com` and an `other.com` row is not; but a
`.example.com` row is *not* returned when querying `sub.example.com`
(subdomain lookups do not match parent-domain rows). Stated for both the
Chromium and the Firefox query. -/
theorem domain_query_suffix_matching (rows : List ChromiumRow) (r : ChromiumRow)
    (frows : List FirefoxRow) (fr : FirefoxRow) :
    (r ∈ rows → r.hostKey = ".example.com" → r ∈ chromiumSelectRows rows "example.com")
    ∧ (r.hostKey = "other.com" → r ∉ chromiumSelectRows rows "example.com")
    ∧ (r.hostKey = ".example.com" → r ∉ chromiumSelectRows rows "sub.example.com")
    ∧ (fr ∈ frows → fr.host = ".example.com" → fr ∈ firefoxSelectRows frows "example.com")
    ∧ (fr.host = "other.com" → fr ∉ firefoxSelectRows frows "example.com")
    ∧ (fr.host = ".example.com" → fr ∉ firefoxSelectRows frows "sub.example.com") := by
  refine ⟨?_, ?_, ?_, ?_, ?_, ?_⟩
  · intro hmem hhost
    exact List.mem_filter.mpr ⟨hmem, by rw [hhost]; rfl⟩
  · intro hhost hmem
    rcases List.mem_filter.mp hmem with ⟨-, hp⟩
    rw [hhost] at hp
    exact absurd hp (by decide)
  · intro hhost hmem
    rcases List.mem_filter.mp hmem with ⟨-, hp⟩
    rw [hhost] at hp
    exact absurd hp (by decide)
  · intro hmem hhost
    exact List.mem_filter.mpr ⟨hmem, by rw [hhost]; rfl⟩
  · intro hhost hmem
    rcases List.mem_filter.mp hmem with ⟨-, hp⟩
    rw [hhost] at hp
    exact absurd hp (by decide)
  · intro hhost hmem
    rcases List.mem_filter.mp hmem with ⟨-, hp⟩
    rw [hhost] at hp
    exact absurd hp (by decide)

/-- A Firefox row with host `.example.com`, for instantiating the amended
domain-matching theorem. -/
def c2FfRow : FirefoxRow :=
  { name := "sess", value := [0x61], host := ".example.com", path := "/",
    expiry := none, isSecure := false, isHttpOnly := false }

/-- Witness for the amended C2 statement at the concrete two-row store. -/
theorem domain_query_suffix_matching_witness :
    c2RowParent ∈ chromiumSelectRows [c2RowParent, c2RowOther] "example.com"
    ∧ c2RowOther ∉ chromiumSelectRows [c2RowParent, c2RowOther] "example.com"
    ∧ c2RowParent ∉ chromiumSelectRows [c2RowParent, c2RowOther] "sub.example.com" :=
  ⟨(domain_query_suffix_matching [c2RowParent, c2RowOther] c2RowParent [] c2FfRow).1
      (by decide) rfl,
   (domain_query_suffix_matching [c2RowParent, c2RowOther] c2RowOther [] c2FfRow).2.1 rfl,
   (domain_query_suffix_matching [c2RowParent, c2RowOther] c2RowParent [] c2FfRow).2.2.1 rfl⟩

/-! ## C6: the minimum-length check on v10/v11 values -/

/-- Chromium environment with no key stores, for the C6 counterexample. -/
def c6MissingEnv : ChromiumEnv :=
  { localAppDataSet := true, chromeLocalState := .absent, edgeLocalState := .absent,
    b64decode := fun _ => .error "unused", cryptUnprotectData := fun _ => none,
    aesGcmDecrypt := fun _ _ _ => none }

/-- C6 counterexample: An 8-byte v10 value (shorter than 31 bytes) does
not always yield the too-short ("malformed ciphertext") error: because the
key is resolved first, a failing key lookup is reported instead. -/
theorem short_v10_with_missing_key_store_reports_key_error :
    decryptChromiumCookie c6MissingEnv (v10Magic ++ [0, 0, 0, 0, 0]) =
      .error (.Decryption "Could not find encryption key")
    ∧ (CookieError.Decryption "Could not find encryption key" ≠
        .Decryption "Encrypted data too short")
    ∧ (v10Magic ++ [0, 0, 0, 0, 0]).length < 31 :=
  ⟨rfl, by decide, by decide⟩

/-- Helper: `get_chromium_encryption_key` never reads the AEAD primitive: its
result is unchanged under any replacement of `aesGcmDecrypt`. -/
theorem getKey_update_aes (env : ChromiumEnv)
    (f : List Byte → List Byte → List Byte → Option (List Byte)) :
    getChromiumEncryptionKey { env with aesGcmDecrypt := f } =
      getChromiumEncryptionKey env := by
  cases env with
  | mk a b c d e orig => cases b <;> cases c <;> rfl

/-- C6 amended: When the master-key resolution succeeds, every value
classified as v10/v11 that is shorter than 3+12+16 = 31 bytes decodes to the
`Decryption "Encrypted data too short"` error; and for every value shorter
than 31 bytes no decryption is ever attempted — the outcome is independent
of the AEAD primitive. (When key resolution fails, the key error is reported
instead; see the counterexample.) -/
theorem short_v10_malformed_when_key_available :
    (∀ (env : ChromiumEnv) (k v : List Byte),
      getChromiumEncryptionKey env = .ok k →
      v.length > 3 → (v.take 3 = v10Magic ∨ v.take 3 = v11Magic) →
      v.length < 31 →
      decryptChromiumCookie env v = .error (.Decryption "Encrypted data too short"))
    ∧ (∀ (env : ChromiumEnv)
        (f g : List Byte → List Byte → List Byte → Option (List Byte)) (v : List Byte),
      v.length < 31 →
      decryptChromiumV10 { env with aesGcmDecrypt := f } v =
        decryptChromiumV10 { env with aesGcmDecrypt := g } v) := by
  constructor
  · intro env k v hk hgt hpre hlen
    have hne : v ≠ [] := by
      intro hv
      subst hv
      simp at hgt
    rcases hpre with h2 | h2 <;>
      simp [decryptChromiumCookie, hne, hgt, h2, decryptChromiumV10, hk, hlen]
  · intro env f g v hlen
    unfold decryptChromiumV10
    rw [getKey_update_aes env f, getKey_update_aes env g]
    cases hk : getChromiumEncryptionKey env with
    | error e => rfl
    | ok k => simp [hlen]

/-- Chromium environment whose Chrome key store resolves to a 32-byte master
key. -/
def c6OkEnv : ChromiumEnv :=
  { localAppDataSet := true, chromeLocalState := .key "a2V5", edgeLocalState := .absent,
    b64decode := fun s => if s = "a2V5" then .ok (dpapiMagic ++ [3]) else .error "Invalid symbol",
    cryptUnprotectData := fun b => if b = [3] then some (List.replicate 32 5) else none,
    aesGcmDecrypt := fun _ _ _ => none }

/-- Witness for the amended C6 statement: with a resolvable key, the 8-byte
v10 value yields exactly the too-short error. -/
theorem short_v10_malformed_when_key_available_witness :
    decryptChromiumCookie c6OkEnv (v10Magic ++ [0, 0, 0, 0, 0]) =
      .error (.Decryption "Encrypted data too short") :=
  short_v10_malformed_when_key_available.1 c6OkEnv (List.replicate 32 5)
    (v10Magic ++ [0, 0, 0, 0, 0]) rfl (by decide) (Or.inl (by decide)) (by decide)

/-! ## C7: distinguishing invalid-text output from decryption failure -/

/-- Is this error the `Decryption` variant of `CookieError`? -/
def CookieError.isDecryptionVariant : CookieError → Bool
  | .Decryption _ => true
  | _ => false

/-- The fixed 31-byte v10 blob used in the C7 scenario: prefix, 12-byte
nonce, 16-byte tag-only ciphertext. -/
def c7Blob : List Byte := v10Magic ++ List.replicate 12 0 ++ List.replicate 16 0

/-- Chromium environment whose AEAD decryption succeeds but produces the
invalid-UTF-8 byte `0xFF`. -/
def c7Utf8Env : ChromiumEnv :=
  { localAppDataSet := true, chromeLocalState := .key "a2V5", edgeLocalState := .absent,
    b64decode := fun s => if s = "a2V5" then .ok (dpapiMagic ++ [7]) else .error "Invalid symbol",
    cryptUnprotectData := fun b => if b = [7] then some (List.replicate 32 2) else none,
    aesGcmDecrypt := fun _ _ _ => some [0xFF] }

/-- Chromium environment whose AEAD decryption fails (tag verification
rejects the input). -/
def c7TagFailEnv : ChromiumEnv :=
  { localAppDataSet := true, chromeLocalState := .key "a2V5", edgeLocalState := .absent,
    b64decode := fun s => if s = "a2V5" then .ok (dpapiMagic ++ [7]) else .error "Invalid symbol",
    cryptUnprotectData := fun b => if b = [7] then some (List.replicate 32 2) else none,
    aesGcmDecrypt := fun _ _ _ => none }

/-- C7 counterexample: The invalid-text case is *not* reported through a
condition distinct from decryption failure: both a successful byte-level
decryption with non-UTF-8 output and an AEAD tag failure produce the same
`CookieError::Decryption` variant, differing only in message text — there is
no separate `EncodingError` condition a caller could match on. -/
theorem utf8_and_aead_failures_share_error_variant :
    decryptChromiumCookie c7Utf8Env c7Blob =
      .error (.Decryption "UTF-8 error: invalid utf-8 sequence")
    ∧ decryptChromiumCookie c7TagFailEnv c7Blob =
      .error (.Decryption "AES-GCM decryption failed: aead::Error")
    ∧ (CookieError.Decryption "UTF-8 error: invalid utf-8 sequence").isDecryptionVariant = true
    ∧ (CookieError.Decryption "AES-GCM decryption failed: aead::Error").isDecryptionVariant
        = true :=
  ⟨rfl, rfl, rfl, rfl⟩

/-- C7 amended: Both failures are reported through the single
`Decryption` variant; the invalid-text case carries a message prefixed
`"UTF-8 error: "` while a tag failure carries the AES-GCM message, so the
two outcomes are distinguishable only by message text, never by error
variant. -/
theorem utf8_error_distinct_only_by_message (env : ChromiumEnv)
    (v key pt : List Byte)
    (hk : getChromiumEncryptionKey env = .ok key) (hklen : key.length = 32)
    (hlen : ¬v.length < 31) :
    (env.aesGcmDecrypt key ((v.drop 3).take 12) (v.drop 15) = some pt →
      isValidUtf8 pt = false →
      decryptChromiumV10 env v = .error (.Decryption "UTF-8 error: invalid utf-8 sequence"))
    ∧ (env.aesGcmDecrypt key ((v.drop 3).take 12) (v.drop 15) = none →
      decryptChromiumV10 env v = .error (.Decryption "AES-GCM decryption failed: aead::Error"))
    ∧ ((CookieError.Decryption "UTF-8 error: invalid utf-8 sequence").isDecryptionVariant
        = (CookieError.Decryption "AES-GCM decryption failed: aead::Error").isDecryptionVariant)
    ∧ (CookieError.Decryption "UTF-8 error: invalid utf-8 sequence" ≠
        CookieError.Decryption "AES-GCM decryption failed: aead::Error") := by
  refine ⟨?_, ?_, rfl, by decide⟩
  · intro haes hutf
    simp [decryptChromiumV10, hk, hlen, hklen, haes, stringFromUtf8, hutf]
  · intro haes
    simp [decryptChromiumV10, hk, hlen, hklen, haes]

/-- Witness for the amended C7 statement at the concrete environments. -/
theorem utf8_error_distinct_only_by_message_witness :
    decryptChromiumV10 c7Utf8Env c7Blob =
      .error (.Decryption "UTF-8 error: invalid utf-8 sequence") :=
  (utf8_error_distinct_only_by_message c7Utf8Env c7Blob (List.replicate 32 2) [0xFF]
    rfl (by decide) (by decide)).1 rfl (by decide)

/-! ## C3: provenance of the master key across browsers -/

/-- The 32-byte master key unwrapped from Chrome's key store in the C3
scenario. -/
def c3ChromeMasterKey : List Byte := List.replicate 32 7

/-- The (different) 32-byte master key unwrapped from Edge's key store in the
C3 scenario. -/
def c3EdgeMasterKey : List Byte := List.replicate 32 9

/-- The plaintext recovered in the C3 scenario (`"ok"`). -/
def c3Plain : List Byte := [0x6F, 0x6B]

/-- The v10 blob stored in Edge's cookie row in the C3 scenario. -/
def c3Blob : List Byte := v10Magic ++ List.replicate 12 0 ++ List.replicate 16 0

/-- Chromium environment in which *both* Chrome's and Edge's key stores
exist, wrapping different master keys, and in which the AEAD primitive only
succeeds under the Chrome-derived key. -/
def c3ChromiumEnv : ChromiumEnv :=
  { localAppDataSet := true,
    chromeLocalState := .key "chromeKeyB64",
    edgeLocalState := .key "edgeKeyB64",
    b64decode := fun s =>
      if s = "chromeKeyB64" then .ok (dpapiMagic ++ [1])
      else if s = "edgeKeyB64" then .ok (dpapiMagic ++ [2])
      else .error "Invalid symbol",
    cryptUnprotectData := fun b =>
      if b = [1] then some c3ChromeMasterKey
      else if b = [2] then some c3EdgeMasterKey
      else none,
    aesGcmDecrypt := fun k _ _ => if k = c3ChromeMasterKey then some c3Plain else none }

/-- The stored Edge row carrying the v10 blob. -/
def c3Row : ChromiumRow :=
  { name := "sess", encryptedValue := c3Blob, hostKey := ".example.com", path := "/",
    expiresUtc := none, isSecure := false, isHttponly := false }

/-- Extraction environment for an Edge-only extraction over that row. -/
def c3Env : ExtractEnv :=
  { chromium := c3ChromiumEnv,
    cookiePathResult := fun b =>
      match b with
      | .Edge => .ok "EdgeCookies"
      | _ => .error (.EnvVar "APPDATA"),
    openOk := fun _ => true,
    chromiumDb := fun p =>
      if p = "EdgeCookies" then .ok [c3Row] else .error "no such table: cookies",
    firefoxDb := fun _ => .error "unused",
    copyResult := .ok (),
    pid := 3 }

/-- The cookie the Edge extraction produces in the C3 scenario. -/
def c3Cookie : Cookie :=
  { name := "sess", value := c3Plain, domain := ".example.com", path := "/",
    expires := none, secure := false, httpOnly := false }

/-- C3 counterexample: With both key stores present, the key resolution
returns the key unwrapped from *Chrome's* store, and an Edge extraction
succeeds decrypting its v10 cookie under that Chrome-derived key — the AEAD
primitive here rejects every key other than the Chrome-derived one, so the
Edge decryption demonstrably used Chrome's key, refuting per-browser key
independence. -/
theorem edge_decryption_uses_chrome_key_store :
    getChromiumEncryptionKey c3ChromiumEnv = .ok c3ChromeMasterKey
    ∧ c3ChromiumEnv.cryptUnprotectData ((dpapiMagic ++ [2]).drop 5) = some c3EdgeMasterKey
    ∧ c3ChromeMasterKey ≠ c3EdgeMasterKey
    ∧ (extractCookies c3Env .Edge "example.com" ⟨["EdgeCookies"]⟩).1 = .ok [c3Cookie]
    ∧ c3ChromiumEnv.aesGcmDecrypt c3EdgeMasterKey (List.replicate 12 0)
        (List.replicate 16 0) = none :=
  ⟨rfl, rfl, by decide, rfl, rfl⟩

/-- C3 amended: The master key is resolved from a fixed path order —
Chrome's `Local State` first, then Edge's — independent of the browser being
extracted: whenever Chrome's key store resolves to a key, that key is the
one used, and the content of Edge's key store is irrelevant (the result is
the same for every possible Edge key-store state). -/
theorem master_key_from_first_store_in_fixed_order (env : ChromiumEnv)
    (b64 : String) (ek k : List Byte)
    (h0 : env.localAppDataSet = true)
    (h1 : env.chromeLocalState = .key b64)
    (h2 : env.b64decode b64 = .ok ek)
    (h3 : ek.take 5 = dpapiMagic)
    (h4 : 5 < ek.length)
    (h5 : env.cryptUnprotectData (ek.drop 5) = some k)
    (h6 : k ≠ []) :
    ∀ e : LocalStateFile,
      getChromiumEncryptionKey { env with edgeLocalState := e } = .ok k := by
  intro e
  have h4' : ¬ek.length < 5 := by omega
  have hdrop : ek.drop 5 ≠ [] := by
    have hpos : 0 < (ek.drop 5).length := by
      rw [List.length_drop]
      omega
    exact List.ne_nil_of_length_pos hpos
  cases env with
  | mk a b c d ecrypt orig =>
    simp only at h1 h2 h5 h0
    subst h0 h1
    simp [getChromiumEncryptionKey, tryLocalState, h2, h3, h4',
      DpapiStore.decryptWindows, hdrop, h5, h6]

/-- Witness for the amended C3 statement: replacing Edge's key store with a
keyless document leaves the resolved key unchanged — still the
Chrome-derived one. -/
theorem master_key_from_first_store_in_fixed_order_witness :
    getChromiumEncryptionKey { c3ChromiumEnv with edgeLocalState := .noKey } =
      .ok c3ChromeMasterKey :=
  master_key_from_first_store_in_fixed_order c3ChromiumEnv "chromeKeyB64"
    (dpapiMagic ++ [1]) c3ChromeMasterKey rfl rfl rfl (by decide) (by decide) rfl
    (by decide) .noKey

/-! ## C4: multi-browser fallback order -/

/-- The loop of `extract_cookies_any_browser` never returns a successful
empty list, for any browser list. -/
theorem anyBrowserLoop_ne_ok_nil (env : ExtractEnv) (domain : String)
    (l : List BrowserType) : ∀ fs : FileSystem,
    (anyBrowserLoop env domain l fs).1 ≠ .ok [] := by
  induction l with
  | nil =>
    intro fs h
    simp [anyBrowserLoop] at h
  | cons b rest ih =>
    intro fs h
    unfold anyBrowserLoop at h
    cases hx : extractCookies env b domain fs with
    | mk r fs2 =>
      rw [hx] at h
      cases r with
      | ok cs =>
        dsimp at h
        rw [Except.ok.injEq] at h
        exact extractCookies_ok_nonempty env b domain fs cs fs2 hx h
      | error e =>
        dsimp at h
        exact ih fs2 h

/-- C4: `extract_cookies_any_browser` iterates Chrome, Edge, Firefox in
order, returning the result of the first browser whose extraction succeeds
(such a result is necessarily non-empty) without surfacing earlier browsers'
failures; if all three fail, it returns exactly `NoCookiesFound(domain)`
regardless of the individual errors. -/
theorem extract_any_browser_first_success (env : ExtractEnv) (domain : String)
    (fs : FileSystem) :
    (extractCookiesAnyBrowser env domain fs).1 ≠ .ok []
    ∧ (∀ cs fs1, extractCookies env .Chrome domain fs = (.ok cs, fs1) →
        (extractCookiesAnyBrowser env domain fs).1 = .ok cs)
    ∧ (∀ e1 fs1 cs fs2, extractCookies env .Chrome domain fs = (.error e1, fs1) →
        extractCookies env .Edge domain fs1 = (.ok cs, fs2) →
        (extractCookiesAnyBrowser env domain fs).1 = .ok cs)
    ∧ (∀ e1 fs1 e2 fs2 cs fs3, extractCookies env .Chrome domain fs = (.error e1, fs1) →
        extractCookies env .Edge domain fs1 = (.error e2, fs2) →
        extractCookies env .Firefox domain fs2 = (.ok cs, fs3) →
        (extractCookiesAnyBrowser env domain fs).1 = .ok cs)
    ∧ (∀ e1 fs1 e2 fs2 e3 fs3, extractCookies env .Chrome domain fs = (.error e1, fs1) →
        extractCookies env .Edge domain fs1 = (.error e2, fs2) →
        extractCookies env .Firefox domain fs2 = (.error e3, fs3) →
        (extractCookiesAnyBrowser env domain fs).1 =
          .error (.NoCookiesFound domain)) := by
  refine ⟨anyBrowserLoop_ne_ok_nil env domain BrowserType.all fs, ?_, ?_, ?_, ?_⟩
  · intro cs fs1 h1
    simp [extractCookiesAnyBrowser, BrowserType.all, anyBrowserLoop, h1]
  · intro e1 fs1 cs fs2 h1 h2
    simp [extractCookiesAnyBrowser, BrowserType.all, anyBrowserLoop, h1, h2]
  · intro e1 fs1 e2 fs2 cs fs3 h1 h2 h3
    simp [extractCookiesAnyBrowser, BrowserType.all, anyBrowserLoop, h1, h2, h3]
  · intro e1 fs1 e2 fs2 e3 fs3 h1 h2 h3
    simp [extractCookiesAnyBrowser, BrowserType.all, anyBrowserLoop, h1, h2, h3]

/-- The matching row in Edge's store for the C4 witness scenario. -/
def c4Row : ChromiumRow :=
  { name := "sess", encryptedValue := [], hostKey := ".example.com", path := "/",
    expiresUtc := none, isSecure := false, isHttponly := false }

/-- Extraction environment where Chrome fails (`LOCALAPPDATA` unset for it)
and Edge succeeds with one matching cookie. -/
def c4Env : ExtractEnv :=
  { chromium :=
      { localAppDataSet := true, chromeLocalState := .absent, edgeLocalState := .absent,
        b64decode := fun _ => .error "unused", cryptUnprotectData := fun _ => none,
        aesGcmDecrypt := fun _ _ _ => none },
    cookiePathResult := fun b =>
      match b with
      | .Edge => .ok "EdgeCookies"
      | _ => .error (.EnvVar "LOCALAPPDATA"),
    openOk := fun _ => true,
    chromiumDb := fun p =>
      if p = "EdgeCookies" then .ok [c4Row] else .error "no such table: cookies",
    firefoxDb := fun _ => .error "unused",
    copyResult := .ok (),
    pid := 4 }

/-- The cookie the C4 witness extraction returns. -/
def c4Cookie : Cookie :=
  { name := "sess", value := [], domain := ".example.com", path := "/",
    expires := none, secure := false, httpOnly := false }

/-- Witness for C4: Chrome fails, Edge succeeds with one cookie, and the
multi-browser extraction returns Edge's cookie without surfacing Chrome's
failure. -/
theorem extract_any_browser_first_success_witness :
    (extractCookiesAnyBrowser c4Env "example.com" ⟨["EdgeCookies"]⟩).1 =
      .ok [c4Cookie] :=
  (extract_any_browser_first_success c4Env "example.com" ⟨["EdgeCookies"]⟩).2.2.1
    (.EnvVar "LOCALAPPDATA") ⟨["EdgeCookies"]⟩ [c4Cookie] ⟨["EdgeCookies"]⟩ rfl rfl

end GptBar
